import Mathlib

/-!
Verification of the yoke-antigravity autonomous-loop core against its
natural-language specification.

The TypeScript sources are embedded shallowly: each class's mutable state
becomes a structure, each method a pure function from the old state (plus the
method's arguments and, where the source consults the wall clock or the file
system, explicit inputs standing for those externals) to the new state and the
returned value.  Machine integers in the source are plain JavaScript numbers
used only as counters and millisecond timestamps, so they are embedded as Nat.
-/

namespace Yoke

/-! ## Circuit breaker (`core/circuit-breaker.ts`) -/

/-- The three circuit states of `CircuitState` in the source. -/
inductive CircuitState
  | CLOSED
  | HALF_OPEN
  | OPEN
deriving DecidableEq, Repr

/-- `CircuitBreakerState` from the source. -/
structure CircuitBreakerState where
  state : CircuitState
  consecutiveNoProgress : Nat
  consecutiveSameError : Nat
  lastProgressLoop : Nat
  totalOpens : Nat
  reason : String
  currentLoop : Nat
deriving DecidableEq, Repr

/-- `DEFAULT_STATE` from the source. -/
def DEFAULT_STATE : CircuitBreakerState :=
  { state := .CLOSED
    consecutiveNoProgress := 0
    consecutiveSameError := 0
    lastProgressLoop := 0
    totalOpens := 0
    reason := ""
    currentLoop := 0 }

/-- `LoopResult` from the source; `responseHash?` is optional. -/
structure LoopResult where
  loopNumber : Nat
  filesChanged : Nat
  hasErrors : Bool
  responseLength : Nat
  responseHash : Option String
deriving DecidableEq, Repr

def NO_PROGRESS_THRESHOLD : Nat := 3
def SAME_ERROR_THRESHOLD : Nat := 5
def HALF_OPEN_THRESHOLD : Nat := 2

/-- The `CircuitBreaker` class's full mutable state: its `state` field plus
the private `lastResponseHashes` array. -/
structure CircuitBreaker where
  state : CircuitBreakerState
  lastResponseHashes : List String
deriving DecidableEq, Repr

/-- The constructor: `this.state = { ...DEFAULT_STATE }`, empty hash list. -/
def CircuitBreaker.init : CircuitBreaker :=
  { state := DEFAULT_STATE, lastResponseHashes := [] }

/-- `canExecute()`: execution is allowed unless the circuit is OPEN. -/
def CircuitBreaker.canExecute (cb : CircuitBreaker) : Bool :=
  decide (cb.state.state ≠ CircuitState.OPEN)

/-- `openCircuit(reason)`: set OPEN, record the reason, bump `totalOpens`. -/
def openCircuit (s : CircuitBreakerState) (reason : String) : CircuitBreakerState :=
  { s with state := .OPEN, reason := reason, totalOpens := s.totalOpens + 1 }

/-- `updateState(hasProgress)` from the source: the switch over the current
circuit state.  Note the same-error threshold is consulted only in the
CLOSED branch. -/
def updateState (s : CircuitBreakerState) (hasProgress : Bool) : CircuitBreakerState :=
  match s.state with
  | .CLOSED =>
      if s.consecutiveNoProgress ≥ NO_PROGRESS_THRESHOLD then
        openCircuit s
          ("No progress in " ++ toString s.consecutiveNoProgress ++ " consecutive loops")
      else if s.consecutiveSameError ≥ SAME_ERROR_THRESHOLD then
        openCircuit s
          ("Same error repeated " ++ toString s.consecutiveSameError ++ " times")
      else if s.consecutiveNoProgress ≥ HALF_OPEN_THRESHOLD then
        { s with state := .HALF_OPEN
                 reason := "Monitoring: " ++ toString s.consecutiveNoProgress
                   ++ " loops without progress" }
      else s
  | .HALF_OPEN =>
      if hasProgress then
        { s with state := .CLOSED, reason := "Progress detected, circuit recovered" }
      else if s.consecutiveNoProgress ≥ NO_PROGRESS_THRESHOLD then
        openCircuit s
          ("No recovery after " ++ toString s.consecutiveNoProgress ++ " loops")
      else s
  | .OPEN => s

/-- `recordResult(result)`: returns the updated breaker and the method's
boolean return value (`state !== OPEN`).  Mirrors the source statement by
statement: progress detection, duplicate-hash detection (keeping the last 5
hashes), the error bump, `currentLoop` update, then `updateState`. -/
def CircuitBreaker.recordResult (cb : CircuitBreaker) (result : LoopResult) :
    CircuitBreaker × Bool :=
  let hasProgress := decide (result.filesChanged > 0)
  let s1 :=
    if result.filesChanged > 0 then
      { cb.state with consecutiveNoProgress := 0, lastProgressLoop := result.loopNumber }
    else
      { cb.state with consecutiveNoProgress := cb.state.consecutiveNoProgress + 1 }
  let hashStep :=
    match result.responseHash with
    | some h =>
        let isDuplicate := cb.lastResponseHashes.contains h
        let s2 :=
          if isDuplicate then
            { s1 with consecutiveSameError := s1.consecutiveSameError + 1 }
          else
            { s1 with consecutiveSameError := 0 }
        let pushed := cb.lastResponseHashes ++ [h]
        let kept := if pushed.length > 5 then pushed.tail else pushed
        (s2, kept)
    | none => (s1, cb.lastResponseHashes)
  let s3 :=
    if result.hasErrors then
      { hashStep.1 with consecutiveSameError := hashStep.1.consecutiveSameError + 1 }
    else hashStep.1
  let s4 := { s3 with currentLoop := result.loopNumber }
  let s5 := updateState s4 hasProgress
  ({ state := s5, lastResponseHashes := hashStep.2 }, decide (s5.state ≠ CircuitState.OPEN))

/-- `reset(reason)`: back to the default state (with the given reason) and an
empty hash history.  The receiver is discarded, exactly as in the source. -/
def CircuitBreaker.reset (_cb : CircuitBreaker) (reason : String) : CircuitBreaker :=
  { state := { DEFAULT_STATE with reason := reason }, lastResponseHashes := [] }

/-! ### C1: CLOSED → HALF_OPEN → OPEN on three no-progress loops;
HALF_OPEN → CLOSED on progress. -/

/-- A no-progress loop result with a fresh (never-duplicate) hash and no
errors, as claim C1 prescribes. -/
def c1NoProgress (n : Nat) (h : String) : LoopResult :=
  { loopNumber := n, filesChanged := 0, hasErrors := false
    responseLength := 100, responseHash := some h }

/-- A progress result (one file changed) from loop `n`. -/
def c1Progress (n : Nat) (h : String) : LoopResult :=
  { loopNumber := n, filesChanged := 1, hasErrors := false
    responseLength := 100, responseHash := some h }

/-- C1: from the freshly constructed breaker (CLOSED, zeroed counters), three
`recordResult` calls with `filesChanged = 0`, fresh distinct response hashes
and `hasErrors = false` leave the breaker CLOSED after the 1st call, move it
to HALF_OPEN after the 2nd and to OPEN after the 3rd; and from the HALF_OPEN
state a single call with `filesChanged > 0` returns it to CLOSED. -/
theorem circuit_breaker_escalation_and_recovery :
    (CircuitBreaker.init.recordResult (c1NoProgress 1 "h1")).1.state.state
        = CircuitState.CLOSED
    ∧ ((CircuitBreaker.init.recordResult (c1NoProgress 1 "h1")).1.recordResult
        (c1NoProgress 2 "h2")).1.state.state = CircuitState.HALF_OPEN
    ∧ (((CircuitBreaker.init.recordResult (c1NoProgress 1 "h1")).1.recordResult
        (c1NoProgress 2 "h2")).1.recordResult (c1NoProgress 3 "h3")).1.state.state
        = CircuitState.OPEN
    ∧ (((CircuitBreaker.init.recordResult (c1NoProgress 1 "h1")).1.recordResult
        (c1NoProgress 2 "h2")).1.recordResult (c1NoProgress 3 "h3")).2 = false
    ∧ (((CircuitBreaker.init.recordResult (c1NoProgress 1 "h1")).1.recordResult
        (c1NoProgress 2 "h2")).1.recordResult (c1Progress 3 "h3")).1.state.state
        = CircuitState.CLOSED := by
  decide

/-! ### Helper lemmas about `updateState` and `recordResult` -/

/-- `updateState` never changes the same-error counter: transitions only touch
`state`, `reason` and `totalOpens`. -/
theorem updateState_consecutiveSameError (s : CircuitBreakerState) (hp : Bool) :
    (updateState s hp).consecutiveSameError = s.consecutiveSameError := by
  cases h : s.state <;> simp [updateState, h, openCircuit] <;> split_ifs <;> rfl

/-- In the OPEN state `updateState` is the identity. -/
theorem updateState_OPEN (s : CircuitBreakerState) (hp : Bool)
    (h : s.state = CircuitState.OPEN) : updateState s hp = s := by
  simp [updateState, h]

/-! ### C5 (corrected): how `recordResult` drives `consecutiveSameError` -/

/-- C5, counterexample to the claim as stated: two error-only calls bring
`consecutiveSameError` to 2; a third call carrying a fresh, non-duplicate
response hash with `hasErrors = false` then RESETS the counter to 0 rather
than leaving its previous value (2) unchanged. -/
theorem sameError_reset_on_fresh_hash_cex :
    (((CircuitBreaker.init.recordResult
        { loopNumber := 1, filesChanged := 1, hasErrors := true
          responseLength := 10, responseHash := none }).1.recordResult
        { loopNumber := 2, filesChanged := 1, hasErrors := true
          responseLength := 10, responseHash := none }).1).state.consecutiveSameError = 2
    ∧ ((((CircuitBreaker.init.recordResult
        { loopNumber := 1, filesChanged := 1, hasErrors := true
          responseLength := 10, responseHash := none }).1.recordResult
        { loopNumber := 2, filesChanged := 1, hasErrors := true
          responseLength := 10, responseHash := none }).1).recordResult
        { loopNumber := 3, filesChanged := 1, hasErrors := false
          responseLength := 10, responseHash := some "fresh" }).1.state.consecutiveSameError
        = 0 := by
  decide

/-- C5 as amended: `recordResult` updates `consecutiveSameError` as follows —
with no supplied hash it is incremented on `hasErrors` and otherwise
unchanged; with a supplied hash already among the retained hashes it is
incremented (twice when `hasErrors` also holds); with a supplied fresh hash it
is reset to 0 and then incremented on `hasErrors`. -/
theorem recordResult_sameError_cases (cb : CircuitBreaker) (r : LoopResult) :
    (r.responseHash = none → r.hasErrors = false →
      (cb.recordResult r).1.state.consecutiveSameError = cb.state.consecutiveSameError)
    ∧ (r.responseHash = none → r.hasErrors = true →
      (cb.recordResult r).1.state.consecutiveSameError = cb.state.consecutiveSameError + 1)
    ∧ (∀ h, r.responseHash = some h → cb.lastResponseHashes.contains h = true →
        r.hasErrors = false →
      (cb.recordResult r).1.state.consecutiveSameError = cb.state.consecutiveSameError + 1)
    ∧ (∀ h, r.responseHash = some h → cb.lastResponseHashes.contains h = true →
        r.hasErrors = true →
      (cb.recordResult r).1.state.consecutiveSameError = cb.state.consecutiveSameError + 2)
    ∧ (∀ h, r.responseHash = some h → cb.lastResponseHashes.contains h = false →
      (cb.recordResult r).1.state.consecutiveSameError = if r.hasErrors then 1 else 0) := by
  refine ⟨?_, ?_, ?_, ?_, ?_⟩
  · intro hh he
    simp only [CircuitBreaker.recordResult, hh, he]
    split_ifs <;> simp_all [updateState_consecutiveSameError]
  · intro hh he
    simp only [CircuitBreaker.recordResult, hh, he]
    split_ifs <;> simp_all [updateState_consecutiveSameError]
  · intro h hh hc he
    simp only [CircuitBreaker.recordResult, hh, hc, he]
    split_ifs <;> simp_all [updateState_consecutiveSameError]
  · intro h hh hc he
    simp only [CircuitBreaker.recordResult, hh, hc, he]
    split_ifs <;> simp_all [updateState_consecutiveSameError]
  · intro h hh hc
    simp only [CircuitBreaker.recordResult, hh, hc]
    split_ifs <;> simp_all [updateState_consecutiveSameError]

/-- Witness for `recordResult_sameError_cases` at concrete inputs: a call with
no hash and an error increments the counter from 1 to 2. -/
theorem recordResult_sameError_cases_witness :
    (CircuitBreaker.mk { DEFAULT_STATE with consecutiveSameError := 1 } [] |>.recordResult
      { loopNumber := 4, filesChanged := 0, hasErrors := true
        responseLength := 5, responseHash := none }).1.state.consecutiveSameError
      = 1 + 1 :=
  (recordResult_sameError_cases
    (CircuitBreaker.mk { DEFAULT_STATE with consecutiveSameError := 1 } [])
    { loopNumber := 4, filesChanged := 0, hasErrors := true
      responseLength := 5, responseHash := none }).2.1 rfl rfl

/-! ### C6: OPEN is sticky until an explicit reset -/

/-- Helper: from OPEN, `recordResult` keeps the circuit OPEN and returns
`false`. -/
theorem recordResult_preserves_OPEN (cb : CircuitBreaker) (r : LoopResult)
    (h : cb.state.state = CircuitState.OPEN) :
    (cb.recordResult r).1.state.state = CircuitState.OPEN
    ∧ (cb.recordResult r).2 = false := by
  simp only [CircuitBreaker.recordResult]
  cases hr : r.responseHash <;> simp only [hr] <;> split_ifs <;>
    simp_all [updateState, openCircuit]

/-- C6: once the breaker is OPEN, every `recordResult` call leaves it OPEN and
returns `false`, `canExecute` is `false`, and only `reset(reason)` restores
CLOSED with zeroed counters and an empty hash history; there is no automatic
OPEN → HALF_OPEN or OPEN → CLOSED transition. -/
theorem open_is_sticky (cb : CircuitBreaker) (r : LoopResult) (reason : String)
    (h : cb.state.state = CircuitState.OPEN) :
    (cb.recordResult r).1.state.state = CircuitState.OPEN
    ∧ (cb.recordResult r).2 = false
    ∧ cb.canExecute = false
    ∧ (cb.reset reason).state.state = CircuitState.CLOSED
    ∧ (cb.reset reason).state.consecutiveNoProgress = 0
    ∧ (cb.reset reason).state.consecutiveSameError = 0
    ∧ (cb.reset reason).state.reason = reason
    ∧ (cb.reset reason).lastResponseHashes = [] := by
  obtain ⟨h1, h2⟩ := recordResult_preserves_OPEN cb r h
  refine ⟨h1, h2, ?_, rfl, rfl, rfl, rfl, rfl⟩
  simp [CircuitBreaker.canExecute, h]

/-- Witness for `open_is_sticky`: a concrete OPEN breaker stays OPEN under a
progress-carrying result and is cleared by `reset`. -/
theorem open_is_sticky_witness :
    ((CircuitBreaker.mk { DEFAULT_STATE with state := .OPEN, totalOpens := 1 } []
      |>.recordResult (c1Progress 7 "w")).1.state.state = CircuitState.OPEN)
    ∧ ((CircuitBreaker.mk { DEFAULT_STATE with state := .OPEN, totalOpens := 1 } []
      |>.recordResult (c1Progress 7 "w")).2 = false)
    ∧ (CircuitBreaker.mk { DEFAULT_STATE with state := .OPEN, totalOpens := 1 } []
      |>.canExecute) = false
    ∧ ((CircuitBreaker.mk { DEFAULT_STATE with state := .OPEN, totalOpens := 1 } []
      |>.reset "Manual reset").state.state = CircuitState.CLOSED)
    ∧ ((CircuitBreaker.mk { DEFAULT_STATE with state := .OPEN, totalOpens := 1 } []
      |>.reset "Manual reset").state.consecutiveNoProgress = 0)
    ∧ ((CircuitBreaker.mk { DEFAULT_STATE with state := .OPEN, totalOpens := 1 } []
      |>.reset "Manual reset").state.consecutiveSameError = 0)
    ∧ ((CircuitBreaker.mk { DEFAULT_STATE with state := .OPEN, totalOpens := 1 } []
      |>.reset "Manual reset").state.reason = "Manual reset")
    ∧ ((CircuitBreaker.mk { DEFAULT_STATE with state := .OPEN, totalOpens := 1 } []
      |>.reset "Manual reset").lastResponseHashes = []) := by
  have := open_is_sticky
    (CircuitBreaker.mk { DEFAULT_STATE with state := .OPEN, totalOpens := 1 } [])
    (c1Progress 7 "w") "Manual reset" rfl
  exact this

/-! ### C10: in HALF_OPEN the same-error counter cannot trip the breaker -/

/-- C10: while the breaker is HALF_OPEN, a `recordResult` call with
`filesChanged > 0` returns it to CLOSED — no matter how large
`consecutiveSameSignal` is, since the same-error threshold is consulted only
in the CLOSED branch — and the only way a call from HALF_OPEN reaches OPEN is
via the no-progress counter reaching its threshold on a no-progress call. -/
theorem half_open_same_error_cannot_open (cb : CircuitBreaker) (r : LoopResult)
    (h : cb.state.state = CircuitState.HALF_OPEN) :
    (r.filesChanged > 0 → (cb.recordResult r).1.state.state = CircuitState.CLOSED)
    ∧ ((cb.recordResult r).1.state.state = CircuitState.OPEN →
        cb.state.consecutiveNoProgress + 1 ≥ NO_PROGRESS_THRESHOLD ∧ r.filesChanged = 0) := by
  have closes : r.filesChanged > 0 →
      (cb.recordResult r).1.state.state = CircuitState.CLOSED := by
    intro hp
    simp only [CircuitBreaker.recordResult]
    cases hr : r.responseHash <;> simp only [hr] <;> split_ifs <;>
      simp_all [updateState, openCircuit]
  have stays : r.filesChanged = 0 →
      cb.state.consecutiveNoProgress + 1 < NO_PROGRESS_THRESHOLD →
      (cb.recordResult r).1.state.state = CircuitState.HALF_OPEN := by
    intro hz hlt
    have h2 : ¬ (2 ≤ cb.state.consecutiveNoProgress) := by
      simp only [NO_PROGRESS_THRESHOLD] at hlt
      omega
    simp only [CircuitBreaker.recordResult, hz]
    cases hr : r.responseHash <;> simp only [hr] <;> split_ifs <;>
      simp_all [updateState, openCircuit, NO_PROGRESS_THRESHOLD] <;>
      rw [if_neg (by omega)]
  refine ⟨closes, ?_⟩
  intro hopen
  rcases Nat.eq_zero_or_pos r.filesChanged with hz | hpos
  · refine ⟨?_, hz⟩
    by_contra hlt
    push_neg at hlt
    rw [stays hz hlt] at hopen
    exact absurd hopen (by decide)
  · rw [closes hpos] at hopen
    exact absurd hopen (by decide)

/-- Witness for `half_open_same_error_cannot_open`: a HALF_OPEN breaker whose
same-error counter is already 7 (past the threshold of 5) still recovers to
CLOSED on a progress result. -/
theorem half_open_same_error_cannot_open_witness :
    7 > SAME_ERROR_THRESHOLD
    ∧ ((CircuitBreaker.mk
        { DEFAULT_STATE with
            state := .HALF_OPEN, consecutiveNoProgress := 2, consecutiveSameError := 7 } []
      |>.recordResult (c1Progress 5 "w")).1.state.state = CircuitState.CLOSED) := by
  refine ⟨by decide, ?_⟩
  exact (half_open_same_error_cannot_open
    (CircuitBreaker.mk
      { DEFAULT_STATE with
          state := .HALF_OPEN, consecutiveNoProgress := 2, consecutiveSameError := 7 } [])
    (c1Progress 5 "w") rfl).1 (by decide)

/-! ## Model selector (`model-selector.ts`): task classification -/

/-- `TaskType` from the source. -/
inductive TaskType
  | reasoning
  | frontend
  | quick
  | general
  | bulk
deriving DecidableEq, Repr, Fintype

/-- `TASK_PATTERNS` from the source: the static category → keyword-list table. -/
def TASK_PATTERNS (t : TaskType) : List String :=
  match t with
  | .reasoning =>
      ["debug", "fix bug", "algorithm", "architecture", "refactor",
       "optimize", "analyze", "complex", "logic", "performance",
       "multi-file", "migration", "security", "error handling"]
  | .frontend =>
      ["ui", "css", "component", "react", "vue", "html", "style",
       "design", "animation", "responsive", "layout", "tailwind",
       "button", "form", "modal", "navbar", "sidebar", "dashboard"]
  | .quick =>
      ["format", "typo", "rename", "simple", "small change", "minor",
       "comment", "cleanup", "lint", "import", "export"]
  | .general =>
      ["feature", "implement", "add", "create", "test", "documentation",
       "api", "endpoint", "function", "class", "module"]
  | .bulk =>
      ["batch", "multiple files", "bulk update", "mass", "all files"]

/-- JavaScript's `String.prototype.toLowerCase`, character by character
(the task texts involved are ASCII, where the two agree). -/
def jsToLowerCase (s : String) : String :=
  String.mk (s.toList.map Char.toLower)

/-- Whether `pat` is a leading segment of `s` (character lists). -/
def leadsWith : List Char → List Char → Bool
  | [], _ => true
  | _ :: _, [] => false
  | a :: as, b :: bs => a == b && leadsWith as bs

/-- Whether `pat` occurs contiguously somewhere inside `s`. -/
def occursIn (pat : List Char) : List Char → Bool
  | [] => leadsWith pat []
  | b :: bs => leadsWith pat (b :: bs) || occursIn pat bs

/-- JavaScript's `String.prototype.includes`: substring containment. -/
def jsIncludes (s pat : String) : Bool :=
  occursIn pat.toList s.toList

/-- The per-category score computed by `analyzeTaskType`'s first loop: the
number of the category's keywords contained in the lower-cased task text. -/
def taskScore (lowerTask : String) (t : TaskType) : Nat :=
  ((TASK_PATTERNS t).filter (fun p => jsIncludes lowerTask p)).length

/-- The iteration order of `Object.entries(scores)`: the insertion order of the
`scores` literal in the source. -/
def TASK_TYPE_ORDER : List TaskType :=
  [.reasoning, .frontend, .quick, .general, .bulk]

/-- `analyzeTaskType(taskDescription)` from the source: lower-case the text,
score every category, then scan the categories in insertion order keeping the
first one whose score strictly exceeds the running maximum (initially 0 with
`general` selected). -/
def analyzeTaskType (taskDescription : String) : TaskType :=
  let lowerTask := jsToLowerCase taskDescription
  (TASK_TYPE_ORDER.foldl
    (fun acc t => if taskScore lowerTask t > acc.1 then (taskScore lowerTask t, t) else acc)
    (0, TaskType.general)).2

/-! ### C4 (corrected): tie-breaking in `analyzeTaskType` -/

/-- C4, counterexample to the claim as stated: on "debug ui" the reasoning and
frontend categories tie for the highest score (1 each, everything else 0),
yet the classifier returns `reasoning`, not `general`. -/
theorem analyzeTaskType_tie_cex :
    taskScore "debug ui" .reasoning = 1
    ∧ taskScore "debug ui" .frontend = 1
    ∧ taskScore "debug ui" .quick = 0
    ∧ taskScore "debug ui" .general = 0
    ∧ taskScore "debug ui" .bulk = 0
    ∧ analyzeTaskType "debug ui" = TaskType.reasoning := by
  decide

/-- A category's position in the fixed evaluation order `TASK_TYPE_ORDER`. -/
def taskTypeIdx : TaskType → Nat
  | .reasoning => 0
  | .frontend => 1
  | .quick => 2
  | .general => 3
  | .bulk => 4

/-- The selection loop over abstract scores: the first category of the
evaluation order achieving the (positive) maximum wins; later ties do not
displace it. -/
theorem foldPick_first_argmax (s : TaskType → Nat) (t : TaskType)
    (h0 : 0 < s t) (hmax : ∀ u, s u ≤ s t)
    (hearlier : ∀ u, taskTypeIdx u < taskTypeIdx t → s u < s t) :
    (TASK_TYPE_ORDER.foldl
      (fun acc u => if s u > acc.1 then (s u, u) else acc)
      (0, TaskType.general)).2 = t := by
  cases t <;>
    [ (have m1 := hmax .frontend
       have m2 := hmax .quick
       have m3 := hmax .general
       have m4 := hmax .bulk);
      (have m1 := hearlier .reasoning (by decide)
       have m2 := hmax .quick
       have m3 := hmax .general
       have m4 := hmax .bulk);
      (have m1 := hearlier .reasoning (by decide)
       have m2 := hearlier .frontend (by decide)
       have m3 := hmax .general
       have m4 := hmax .bulk);
      (have m1 := hearlier .reasoning (by decide)
       have m2 := hearlier .frontend (by decide)
       have m3 := hearlier .quick (by decide)
       have m4 := hmax .bulk);
      (have m1 := hearlier .reasoning (by decide)
       have m2 := hearlier .frontend (by decide)
       have m3 := hearlier .quick (by decide)
       have m4 := hearlier .general (by decide)) ] <;>
    simp only [TASK_TYPE_ORDER, List.foldl] <;>
    split_ifs <;> first | rfl | omega

/-- C4 as amended: the classifier returns the category with the strictly
highest keyword-match count, and returns `general` when every category scores
zero; but a tie for the highest (non-zero) count is resolved in favor of the
tied category that comes first in the fixed evaluation order (reasoning,
frontend, quick, general, bulk), not in favor of `general`.  The third
conjunct states the full first-argmax rule: for EVERY text and every category
`t` with a positive score that no category beats and that every
earlier-in-order category scores strictly below, the classifier returns `t` —
ties with categories later in the order are permitted. -/
theorem analyzeTaskType_highest_or_general (txt : String) :
    ((∀ t : TaskType, taskScore (jsToLowerCase txt) t = 0) → analyzeTaskType txt = TaskType.general)
    ∧ (∀ t : TaskType,
        (∀ u : TaskType, u ≠ t → taskScore (jsToLowerCase txt) u < taskScore (jsToLowerCase txt) t) →
        analyzeTaskType txt = t)
    ∧ (∀ t : TaskType, 0 < taskScore (jsToLowerCase txt) t →
        (∀ u : TaskType, taskScore (jsToLowerCase txt) u ≤ taskScore (jsToLowerCase txt) t) →
        (∀ u : TaskType, taskTypeIdx u < taskTypeIdx t →
            taskScore (jsToLowerCase txt) u < taskScore (jsToLowerCase txt) t) →
        analyzeTaskType txt = t) := by
  refine ⟨?_, ?_, ?_⟩
  · intro hz
    simp [analyzeTaskType, TASK_TYPE_ORDER, hz]
  · intro t ht
    cases t <;>
      [ (have h1 := ht .frontend (by simp)
         have h2 := ht .quick (by simp)
         have h3 := ht .general (by simp)
         have h4 := ht .bulk (by simp));
        (have h1 := ht .reasoning (by simp)
         have h2 := ht .quick (by simp)
         have h3 := ht .general (by simp)
         have h4 := ht .bulk (by simp));
        (have h1 := ht .reasoning (by simp)
         have h2 := ht .frontend (by simp)
         have h3 := ht .general (by simp)
         have h4 := ht .bulk (by simp));
        (have h1 := ht .reasoning (by simp)
         have h2 := ht .frontend (by simp)
         have h3 := ht .quick (by simp)
         have h4 := ht .bulk (by simp));
        (have h1 := ht .reasoning (by simp)
         have h2 := ht .frontend (by simp)
         have h3 := ht .quick (by simp)
         have h4 := ht .general (by simp)) ] <;>
      simp only [analyzeTaskType, TASK_TYPE_ORDER, List.foldl] <;>
      split_ifs <;> first | rfl | omega
  · intro t h0 hmax hearlier
    exact foldPick_first_argmax (taskScore (jsToLowerCase txt)) t h0 hmax hearlier

/-- Witness for `analyzeTaskType_highest_or_general`: "Debug the login race
condition" has reasoning strictly highest (conjunct 2), and on "debug ui" the
tie between reasoning and frontend at the top score resolves to `reasoning`,
the earlier category in the evaluation order (conjunct 3). -/
theorem analyzeTaskType_highest_or_general_witness :
    analyzeTaskType "Debug the login race condition" = TaskType.reasoning
    ∧ analyzeTaskType "debug ui" = TaskType.reasoning :=
  ⟨(analyzeTaskType_highest_or_general "Debug the login race condition").2.1
      TaskType.reasoning (by decide),
   (analyzeTaskType_highest_or_general "debug ui").2.2
      TaskType.reasoning (by decide) (by decide) (by decide)⟩

/-! ## Rate limiter (`rate-limiter.ts`, the per-model 5-hour-window variant) -/

/-- `ModelId` from `model-selector.ts`: the closed set of 7 identifiers. -/
inductive ModelId
  | claudeOpusThinking      -- 'claude-opus-4.5-thinking'
  | claudeSonnetThinking    -- 'claude-sonnet-4.5-thinking'
  | claudeSonnet            -- 'claude-sonnet-4.5'
  | geminiProHigh           -- 'gemini-3-pro-high'
  | geminiProLow            -- 'gemini-3-pro-low'
  | geminiFlash             -- 'gemini-3-flash'
  | gptOss                  -- 'gpt-oss-120b'
deriving DecidableEq, Repr, Fintype

/-- `DEFAULT_LIMITS`: calls per 5-hour window. -/
def DEFAULT_LIMITS : ModelId → Nat
  | .claudeOpusThinking => 50
  | .claudeSonnetThinking => 100
  | .claudeSonnet => 150
  | .geminiProHigh => 100
  | .geminiProLow => 200
  | .geminiFlash => 300
  | .gptOss => 200

def RESET_INTERVAL_MS : Nat := 5 * 60 * 60 * 1000

/-- `ModelUsage` from the source (timestamps in milliseconds). -/
structure ModelUsage where
  callCount : Nat
  lastReset : Nat
  isLimited : Bool
deriving DecidableEq, Repr

/-- `RateLimitState` from `rate-limiter.ts`.  `initializeState` populates an
entry for every model of `DEFAULT_LIMITS`, so the record is embedded as a
total function and the source's missing-key guards are vacuous for states
reached from a fresh state. -/
structure RateLimitState where
  models : ModelId → ModelUsage
  globalCalls : Nat
  sessionStart : Nat

/-- `initializeState()` at clock value `now`. -/
def initializeState (now : Nat) : RateLimitState :=
  { models := fun _ => { callCount := 0, lastReset := now, isLimited := false }
    globalCalls := 0
    sessionStart := now }

/-- `checkResetPeriod()`: the lazy window-reset sweep.  Any model whose window
has elapsed gets a FRESH usage object with zeroed counters (the old object is
not mutated — this matters for `isModelAvailable` below).  The `saveState()`
call at the end is file I/O and is dropped from the embedding. -/
def checkResetPeriod (st : RateLimitState) (now : Nat) : RateLimitState :=
  { st with
      models := fun m =>
        let usage := st.models m
        if now - usage.lastReset ≥ RESET_INTERVAL_MS then
          { callCount := 0, lastReset := now, isLimited := false }
        else usage }

/-- `isModelAvailable(modelId)`.  The source reads
`const usage = this.state.models[modelId]` BEFORE calling
`checkResetPeriod()`; the sweep installs a fresh object in the map, so the
final comparison `usage.callCount < this.limits[modelId]` still sees the
pre-sweep counter.  The embedding returns the post-sweep state together with
the boolean computed from the pre-sweep snapshot, exactly as the source
aliasing behaves. -/
def isModelAvailable (st : RateLimitState) (limits : ModelId → Nat) (now : Nat)
    (m : ModelId) : RateLimitState × Bool :=
  let usage := st.models m
  let st' := checkResetPeriod st now
  (st', decide (usage.callCount < limits m))

/-- `recordCall(modelId)`: increment the model's count and the global count;
set `isLimited` once the post-increment count reaches the limit.  (The
missing-key initialization branch is vacuous for the total-function
embedding; `saveState()` is dropped.) -/
def recordCall (st : RateLimitState) (limits : ModelId → Nat) (m : ModelId) :
    RateLimitState :=
  let u := st.models m
  let u1 : ModelUsage := { u with callCount := u.callCount + 1 }
  let u2 : ModelUsage :=
    if u1.callCount ≥ limits m then { u1 with isLimited := true } else u1
  { st with
      models := fun x => if x = m then u2 else st.models x
      globalCalls := st.globalCalls + 1 }

/-! ### C3 (code_bug): availability after the window elapses -/

/-- Fresh state at clock 0 after exactly `DEFAULT_LIMITS` = 50 calls to
`recordCall` for the opus model. -/
def c3Exhausted : RateLimitState :=
  (fun st => recordCall st DEFAULT_LIMITS ModelId.claudeOpusThinking)^[50]
    (initializeState 0)

/-- C3, evaluated at the failing input.  After exactly 50 = limit calls the
availability check is false (the claim's first half holds), but the FIRST
`isModelAvailable` query made once the 5-hour window has elapsed STILL
returns false — the source captures the usage object before the lazy sweep
replaces it, so the comparison sees the stale pre-sweep counter even though
the sweep has just zeroed the stored state (as the third conjunct shows, an
immediately repeated query returns true). -/
theorem isModelAvailable_stale_after_window :
    (isModelAvailable c3Exhausted DEFAULT_LIMITS 0 ModelId.claudeOpusThinking).2 = false
    ∧ (isModelAvailable c3Exhausted DEFAULT_LIMITS RESET_INTERVAL_MS
        ModelId.claudeOpusThinking).2 = false
    ∧ ((c3Exhausted.models ModelId.claudeOpusThinking).callCount = 50)
    ∧ (((isModelAvailable c3Exhausted DEFAULT_LIMITS RESET_INTERVAL_MS
        ModelId.claudeOpusThinking).1.models ModelId.claudeOpusThinking).callCount = 0)
    ∧ (isModelAvailable
        (isModelAvailable c3Exhausted DEFAULT_LIMITS RESET_INTERVAL_MS
          ModelId.claudeOpusThinking).1
        DEFAULT_LIMITS RESET_INTERVAL_MS ModelId.claudeOpusThinking).2 = true := by
  set_option maxRecDepth 10000 in decide

/-! ## Exit detector (`core/exit-detector.ts`, Antigravity variant) -/

/-- JavaScript's whitespace class for `trim`/`\s`, restricted to the ASCII
whitespace characters. -/
def jsIsWhitespace (c : Char) : Bool :=
  c == ' ' || c == '\t' || c == '\n' || c == '\r' || c == '\x0b' || c == '\x0c'

/-- JavaScript's `String.prototype.trim`. -/
def jsTrim (s : String) : String :=
  String.mk (((s.toList.dropWhile jsIsWhitespace).reverse.dropWhile jsIsWhitespace).reverse)

/-- `.replace(/\s+/g, ' ')`: collapse every maximal whitespace run to one
space.  The boolean accumulator records whether the previous character was
whitespace. -/
def collapseWsAux : List Char → Bool → List Char
  | [], _ => []
  | c :: cs, prevWs =>
      if jsIsWhitespace c then
        if prevWs then collapseWsAux cs true else ' ' :: collapseWsAux cs true
      else c :: collapseWsAux cs false

/-- `normalizeResponse(response)`: lower-case, collapse whitespace, trim,
keep the first 500 characters. -/
def normalizeResponse (response : String) : String :=
  String.mk (((jsTrim
    (String.mk (collapseWsAux (jsToLowerCase response).toList false))).toList).take 500)

/-- `isSimilar(a, b)`: exact match, or first-100-character match when both
exceed 100 characters. -/
def isSimilar (a b : String) : Bool :=
  if a == b then true
  else if a.toList.length > 100 && b.toList.length > 100 then
    decide (a.toList.take 100 = b.toList.take 100)
  else false

def stagnationThreshold : Nat := 3

/-- `ExitCheck` from the source.  `confidence` is a JavaScript number holding
only the literals 0, 0.7, 0.9 and 1.0, embedded as ℚ. -/
structure ExitCheck where
  shouldExit : Bool
  reason : Option String
  confidence : ℚ
deriving DecidableEq, Repr

/-- The `ExitDetector` class's mutable state: the failure counter and the
normalized-response history used for stagnation detection. -/
structure ExitDetector where
  consecutiveFailures : Nat
  lastResponses : List String
deriving DecidableEq, Repr

def maxConsecutiveFailures : Nat := 3

/-- `isStagnant(response)`: count retained entries similar to the normalized
response, push it (keeping the last 5), and report whether at least
`stagnationThreshold - 1` duplicates were found. -/
def ExitDetector.isStagnant (d : ExitDetector) (response : String) :
    Bool × ExitDetector :=
  let normalized := normalizeResponse response
  let duplicates := (d.lastResponses.filter (fun r => isSimilar normalized r)).length
  let pushed := d.lastResponses ++ [normalized]
  let kept := if pushed.length > 5 then pushed.tail else pushed
  (decide (duplicates ≥ stagnationThreshold - 1), { d with lastResponses := kept })

/-- `checkResponse(response)`.  The loop over the `EXIT_PATTERNS` regex array
is embedded as an opaque predicate `patternTest` (the regular-expression
engine is external to the core); every other step is translated directly.
An empty or whitespace-only response returns `{shouldExit:false,
confidence:0}` before any pattern or stagnation work, leaving the detector
untouched. -/
def ExitDetector.checkResponse (patternTest : String → Bool) (d : ExitDetector)
    (response : String) : ExitCheck × ExitDetector :=
  if response = "" ∨ jsTrim response = "" then
    ({ shouldExit := false, reason := none, confidence := 0 }, d)
  else if patternTest response then
    ({ shouldExit := true, reason := some "Completion signal detected in response"
       confidence := 9/10 }, d)
  else
    let stag := d.isStagnant response
    if stag.1 then
      ({ shouldExit := true, reason := some "Response stagnation detected"
         confidence := 7/10 }, stag.2)
    else
      ({ shouldExit := false, reason := none, confidence := 0 }, stag.2)

/-! ### C8: empty/whitespace-only input -/

/-- C8: for every detector state, every pattern semantics and every response
that is empty or whitespace-only, `checkResponse` returns
`{shouldExit := false, confidence := 0}` and leaves the detector state
unchanged — so repeated calls return the same result.  (`checkResponse` is a
total function of its inputs, so no exception path exists in the
embedding.) -/
theorem checkResponse_empty_input (patternTest : String → Bool) (d : ExitDetector)
    (response : String) (h : jsTrim response = "") :
    d.checkResponse patternTest response
      = ({ shouldExit := false, reason := none, confidence := 0 }, d)
    ∧ ((d.checkResponse patternTest response).2.checkResponse patternTest response
      = ({ shouldExit := false, reason := none, confidence := 0 }, d)) := by
  have : (response = "" ∨ jsTrim response = "") := Or.inr h
  constructor <;> simp [ExitDetector.checkResponse, this]

/-- Witness for `checkResponse_empty_input` at a whitespace-only response and
an always-matching pattern test: the early return fires before the pattern
test is consulted. -/
theorem checkResponse_empty_input_witness :
    (ExitDetector.mk 2 ["prior"]).checkResponse (fun _ => true) "  \t\n "
      = ({ shouldExit := false, reason := none, confidence := 0 },
         ExitDetector.mk 2 ["prior"]) :=
  (checkResponse_empty_input (fun _ => true) (ExitDetector.mk 2 ["prior"]) "  \t\n "
    (by decide)).1

/-! ## Rate limit handler (`core/rate-limit-handler.ts`) -/

/-- `ModelIdType` from `utils/constants.ts` (the Antigravity identifier set;
constructor names follow the `ModelId` enum keys there). -/
inductive ModelIdType
  | CLAUDE_OPUS_THINKING    -- 'claude-opus-4-5-thinking'
  | CLAUDE_SONNET_THINKING  -- 'claude-sonnet-4-5-thinking'
  | CLAUDE_SONNET           -- 'claude-sonnet-4-5'
  | GEMINI_PRO_HIGH         -- 'gemini-3-pro-high'
  | GEMINI_PRO_LOW          -- 'gemini-3-pro-low'
  | GEMINI_FLASH            -- 'gemini-3-flash'
  | GPT_OSS                 -- 'gpt-oss-120b-medium'
deriving DecidableEq, Repr, Fintype

/-- `MODEL_FALLBACK_ORDER`: fixed priority order, most capable first. -/
def MODEL_FALLBACK_ORDER : List ModelIdType :=
  [.CLAUDE_OPUS_THINKING, .CLAUDE_SONNET_THINKING, .CLAUDE_SONNET,
   .GEMINI_PRO_HIGH, .GEMINI_PRO_LOW, .GEMINI_FLASH, .GPT_OSS]

/-- The handler's `RateLimitState` (renamed here to avoid the clash with the
rate-limiter's state of the same source name).  The JavaScript `Set` is
embedded as an insertion-ordered duplicate-free list. -/
structure HandlerState where
  currentModel : ModelIdType
  rateLimitedModels : List ModelIdType
  lastSwitch : Nat
  switchCount : Nat
deriving DecidableEq, Repr

/-- `Set.prototype.add`: append when absent. -/
def setAdd (s : List ModelIdType) (m : ModelIdType) : List ModelIdType :=
  if m ∈ s then s else s ++ [m]

/-- `getNextModel()`: mark the current model rate-limited, then walk the
fallback order returning the first member not in the set (switching to it and
recording the switch); return `none` when every model is limited. -/
def getNextModel (st : HandlerState) (now : Nat) :
    HandlerState × Option ModelIdType :=
  let limited := setAdd st.rateLimitedModels st.currentModel
  match MODEL_FALLBACK_ORDER.find? (fun m => ! limited.contains m) with
  | some m =>
      ({ st with
          currentModel := m
          rateLimitedModels := limited
          lastSwitch := now
          switchCount := st.switchCount + 1 }, some m)
  | none => ({ st with rateLimitedModels := limited }, none)

/-- `setCurrentModel(model)`: a rate-limited request falls back to
`getNextModel()`; otherwise the model simply becomes current. -/
def setCurrentModel (st : HandlerState) (now : Nat) (m : ModelIdType) :
    HandlerState :=
  if m ∈ st.rateLimitedModels then (getNextModel st now).1
  else { st with currentModel := m }

/-- `getAvailableModelCount()` / `hasAvailableModels()`.  The set is
duplicate-free, so its JavaScript `size` is the list length. -/
def hasAvailableModels (st : HandlerState) : Bool :=
  decide (MODEL_FALLBACK_ORDER.length - st.rateLimitedModels.length > 0)

/-! ### C9: `setCurrentModel` on an already rate-limited model -/

/-- C9: calling `setCurrentModel m` with `m` already in the rate-limited set
never installs `m`; it adds the previously current model to the rate-limited
set as a side effect and, when some model of the fixed fallback order is
outside the enlarged set, switches to the first (highest-priority) such
model — necessarily different from `m` and not previously rate-limited; when
every model of the order is in the enlarged set, the current model is left
unchanged. -/
theorem setCurrentModel_limited (st : HandlerState) (now : Nat) (m : ModelIdType)
    (h : m ∈ st.rateLimitedModels) :
    (setCurrentModel st now m).rateLimitedModels
        = setAdd st.rateLimitedModels st.currentModel
    ∧ (∀ m', MODEL_FALLBACK_ORDER.find?
          (fun x => ! (setAdd st.rateLimitedModels st.currentModel).contains x) = some m' →
        (setCurrentModel st now m).currentModel = m'
        ∧ m' ≠ m
        ∧ m' ∉ st.rateLimitedModels)
    ∧ (MODEL_FALLBACK_ORDER.find?
          (fun x => ! (setAdd st.rateLimitedModels st.currentModel).contains x) = none →
        (setCurrentModel st now m).currentModel = st.currentModel) := by
  have hmem : m ∈ setAdd st.rateLimitedModels st.currentModel := by
    simp only [setAdd]
    split_ifs <;> simp [h]
  refine ⟨?_, ?_, ?_⟩
  · simp only [setCurrentModel, if_pos h, getNextModel]
    cases hf : MODEL_FALLBACK_ORDER.find?
        (fun x => ! (setAdd st.rateLimitedModels st.currentModel).contains x) <;>
      simp [hf]
  · intro m' hf
    have hpred := List.find?_some hf
    have hout : m' ∉ setAdd st.rateLimitedModels st.currentModel := by
      simpa using hpred
    refine ⟨?_, ?_, ?_⟩
    · simp only [setCurrentModel, if_pos h, getNextModel, hf]
    · intro he
      exact hout (he ▸ hmem)
    · intro hin
      exact hout (by
        simp only [setAdd]
        split_ifs <;> simp [hin])
  · intro hf
    simp only [setCurrentModel, if_pos h, getNextModel, hf]

/-- Witness for `setCurrentModel_limited`: with opus rate-limited and sonnet
current, requesting opus marks sonnet limited and switches to
sonnet-thinking, the first fallback model outside the enlarged set. -/
theorem setCurrentModel_limited_witness :
    (setCurrentModel
      (HandlerState.mk ModelIdType.CLAUDE_SONNET [ModelIdType.CLAUDE_OPUS_THINKING] 0 0)
      5 ModelIdType.CLAUDE_OPUS_THINKING).currentModel
      = ModelIdType.CLAUDE_SONNET_THINKING
    ∧ ModelIdType.CLAUDE_SONNET_THINKING ≠ ModelIdType.CLAUDE_OPUS_THINKING
    ∧ ModelIdType.CLAUDE_SONNET_THINKING ∉ [ModelIdType.CLAUDE_OPUS_THINKING] := by
  have hsp := (setCurrentModel_limited
    (HandlerState.mk ModelIdType.CLAUDE_SONNET [ModelIdType.CLAUDE_OPUS_THINKING] 0 0)
    5 ModelIdType.CLAUDE_OPUS_THINKING (by decide)).2.1
    ModelIdType.CLAUDE_SONNET_THINKING (by decide)
  exact ⟨hsp.1, hsp.2.1, hsp.2.2⟩

/-! ## Recovery manager (`core/recovery-strategies.ts`) -/

/-- The `RecoveryStrategy` enum from the source. -/
inductive RecoveryStrategy
  | SWITCH_TO_THINKING
  | USE_WEB_SEARCH
  | BREAK_DOWN_PROBLEM
  | TRY_DIFFERENT_MODEL
  | SIMPLIFY_REQUEST
  | ASK_FOR_CLARIFICATION
deriving DecidableEq, Repr

/-- `RecoveryAction` from the source: `promptModifier?` and `modelSwitch?`
are optional (no action of the reference ladder carries both). -/
structure RecoveryAction where
  strategy : RecoveryStrategy
  description : String
  promptModifier : Option String
  modelSwitch : Option ModelIdType
  priority : Nat
deriving DecidableEq, Repr

/-- `RECOVERY_ACTIONS` from the source, fields and template-literal prompt
texts verbatim (the literals open with a newline). -/
def RECOVERY_ACTIONS : List RecoveryAction :=
  [ { strategy := .SWITCH_TO_THINKING
      description := "Switch to thinking model for deeper reasoning"
      promptModifier := none
      modelSwitch := some .CLAUDE_SONNET_THINKING
      priority := 1 },
    { strategy := .USE_WEB_SEARCH
      description := "Suggest using @web for online research"
      promptModifier := some "\nI notice we might be stuck. Please try:\n1. Use @web to search for solutions or documentation\n2. Look up error messages or similar issues online\n3. Find code examples that might help\n\nContinue working on the task with this additional research."
      modelSwitch := none
      priority := 2 },
    { strategy := .BREAK_DOWN_PROBLEM
      description := "Break the problem into smaller steps"
      promptModifier := some "\nLet's break this down into smaller steps:\n1. Identify what's currently blocking progress\n2. List the smallest possible next action\n3. Complete just that one small step\n4. Then we'll continue from there\n\nWhat's the single smallest step we can take right now?"
      modelSwitch := none
      priority := 3 },
    { strategy := .TRY_DIFFERENT_MODEL
      description := "Try a different model for fresh perspective"
      promptModifier := none
      modelSwitch := some .GEMINI_PRO_HIGH
      priority := 4 },
    { strategy := .SIMPLIFY_REQUEST
      description := "Simplify the current request"
      promptModifier := some "\nLet's simplify our approach:\n1. Skip any complex optimizations for now\n2. Build the most basic working version first\n3. We can enhance it later\n\nWhat's the simplest implementation that would work?"
      modelSwitch := none
      priority := 5 },
    { strategy := .ASK_FOR_CLARIFICATION
      description := "Request clarification on requirements"
      promptModifier := some "\nBefore continuing, let's clarify:\n1. What exactly are we trying to achieve?\n2. What's the expected outcome?\n3. Are there any constraints I should know about?\n\nPlease summarize the current goal and what's blocking us."
      modelSwitch := none
      priority := 6 } ]

/-- The `RecoveryManager` class's mutable state: the attempted-strategies set
(embedded as an insertion-ordered duplicate-free list) and the attempt
counter.  `maxRecoveryAttempts` is the class's constant field. -/
structure RecoveryManagerState where
  attemptedStrategies : List RecoveryStrategy
  recoveryCount : Nat
deriving DecidableEq, Repr

def maxRecoveryAttempts : Nat := 3

def RecoveryManagerState.init : RecoveryManagerState :=
  { attemptedStrategies := [], recoveryCount := 0 }

/-- `Set.prototype.add` on the attempted-strategies set. -/
def strategySetAdd (s : List RecoveryStrategy) (x : RecoveryStrategy) :
    List RecoveryStrategy :=
  if x ∈ s then s else s ++ [x]

/-- Ascending insertion by `priority` (stable; the source's
`sort((a, b) => a.priority - b.priority)` on the distinct priorities
1..6). -/
def insertByPriority (a : RecoveryAction) : List RecoveryAction → List RecoveryAction
  | [] => [a]
  | b :: bs =>
      if a.priority ≤ b.priority then a :: b :: bs else b :: insertByPriority a bs

def sortByPriority : List RecoveryAction → List RecoveryAction
  | [] => []
  | a :: as => insertByPriority a (sortByPriority as)

/-- `getNextRecoveryAction()`: filter out attempted strategies, sort by
priority, return null when nothing remains or the attempt cap is reached,
else mark the first action attempted, bump the counter and return it. -/
def getNextRecoveryAction (r : RecoveryManagerState) :
    RecoveryManagerState × Option RecoveryAction :=
  let availableActions := sortByPriority
    (RECOVERY_ACTIONS.filter (fun action => ! r.attemptedStrategies.contains action.strategy))
  if availableActions.isEmpty || decide (r.recoveryCount ≥ maxRecoveryAttempts) then
    (r, none)
  else
    match availableActions with
    | [] => (r, none)  -- unreachable: `isEmpty` was false
    | action :: _ =>
        ({ attemptedStrategies := strategySetAdd r.attemptedStrategies action.strategy
           recoveryCount := r.recoveryCount + 1 }, some action)

/-- `canRecover()`: attempt budget remains and not every ladder strategy has
been attempted (the set is duplicate-free, so its size is the list
length). -/
def canRecover (r : RecoveryManagerState) : Bool :=
  decide (r.recoveryCount < maxRecoveryAttempts)
    && decide (r.attemptedStrategies.length < RECOVERY_ACTIONS.length)

/-- `reset()`: clear the attempted set and the counter. -/
def RecoveryManagerState.reset (_r : RecoveryManagerState) : RecoveryManagerState :=
  { attemptedStrategies := [], recoveryCount := 0 }

/-! ## Autonomous loop orchestrator (`core/autonomous-loop.ts`) -/

/-- Splits a character list at newline characters (JavaScript
`content.split('\n')`). -/
def splitLines : List Char → List (List Char)
  | [] => [[]]
  | c :: cs =>
      if c = '\n' then [] :: splitLines cs
      else
        match splitLines cs with
        | [] => [[c]]
        | l :: ls => (c :: l) :: ls

/-- Modelled from the spec: the `task-analyzer.ts` module
(`taskAnalyzer.extractCurrentTask`) is not among the provided sources — only
its caller `autonomous-loop.ts` is.  Spec §6: the external task list is a
checklist with lines of the form `- [ ] text` / `- [x] text` / `- [/] text`,
and "get next task" reads the first `[ ]` or `[/]` line. -/
def extractCurrentTask (content : String) : Option String :=
  (splitLines content.toList).findSome? fun line =>
    if leadsWith "- [ ]".toList line then some (jsTrim (String.mk (line.drop 5)))
    else if leadsWith "- [/]".toList line then some (jsTrim (String.mk (line.drop 5)))
    else none

/-- `getCurrentTask()` from `autonomous-loop.ts`, with the file system made
explicit: `fixPlan` is the content of `@fix_plan.md` when the workspace has
one, and `fixPlanReadable` is whether the read succeeds (the catch branch
falls through to the goal).  A non-empty `goal` is used on loop 1; a present
readable plan yields its next open task, or `none` ("all complete — EXIT",
without falling back to the goal); otherwise a non-empty goal is returned
("continue with it after first loop"), else `none`. -/
def getCurrentTask (goal : String) (loopCount : Nat) (fixPlan : Option String)
    (fixPlanReadable : Bool) : Option String :=
  if goal ≠ "" ∧ loopCount = 1 then some goal
  else
    match fixPlan with
    | some content =>
        if fixPlanReadable then
          match extractCurrentTask content with
          | some t => some t
          | none => none
        else if goal ≠ "" then some goal else none
    | none => if goal ≠ "" then some goal else none

/-- What `progressTracker.recordLoop` returns to `runLoop` (the tracker reads
git state and is external to the loop). -/
structure ProgressRecord where
  filesChanged : Nat
  hasErrors : Bool
  responseLength : Nat
  responseHash : Option String
deriving DecidableEq, Repr

/-- The `LoopResult` handed to `circuitBreaker.recordResult` in step 8. -/
def toLoopResult (n : Nat) (p : ProgressRecord) : LoopResult :=
  { loopNumber := n, filesChanged := p.filesChanged, hasErrors := p.hasErrors
    responseLength := p.responseLength, responseHash := p.responseHash }

/-- The `AutonomousLoop` fields that `runLoop` reads and writes, together with
the engine singletons it drives (`circuitBreaker`, `recoveryManager`,
`rateLimitHandler`). -/
structure ALState where
  running : Bool
  loopCount : Nat
  currentTask : Option String
  goal : String
  recoveryPrompt : Option String
  previousModel : Option ModelIdType
  breaker : CircuitBreaker
  recovery : RecoveryManagerState
  rlh : HandlerState

/-- The external world of one `runLoop` iteration: the hourly limiter's
answer and the operator's wait-or-exit decision, the `@fix_plan.md` content,
the configuration's auto-switch flag with the selector's choice, the outcome
of `executeTask()` (its success flag, the stop reason when it stopped the
loop from inside, and its effect on the rate-limit handler from
rate-limit-triggered model switches), the progress tracker's record, and the
clock. -/
structure IterEnv where
  canMakeCall : Bool
  rateDecisionExit : Bool
  fixPlan : Option String
  fixPlanReadable : Bool
  autoSwitchModels : Bool
  selectionModelId : ModelIdType
  execSuccess : Bool
  execStopReason : Option String
  execEffectRlh : HandlerState → HandlerState
  progress : ProgressRecord
  now : Nat

/-- Outcome of one iteration of the `while` body: either `stop(reason)` was
called (the loop returns), or control reaches the bottom / a `continue` and
the next iteration begins from the carried state. -/
inductive IterResult
  | stopped (reason : String) (final : ALState)
  | next (s : ALState)

/-- One iteration of `runLoop`'s `while (this.running)` body, steps 1-9 of
§4.7 in source order; steps 10-11 (git commit, sleep) are external side
effects.  The iteration begins with `this.loopCount++`. -/
def loopIteration (maxLoops : Nat) (s0 : ALState) (env : IterEnv) : IterResult :=
  let s := { s0 with loopCount := s0.loopCount + 1 }
  -- 1. CHECK CIRCUIT BREAKER
  if ! s.breaker.canExecute then
    .stopped ("Circuit breaker opened: " ++ s.breaker.state.reason)
      { s with running := false }
  -- 1.5 CHECK HOURLY RATE LIMIT
  else if ! env.canMakeCall && env.rateDecisionExit then
    .stopped "Rate limit reached - user chose to exit" { s with running := false }
  -- 2. CHECK MAX LOOPS
  else if s.loopCount > maxLoops then
    .stopped ("Max loops reached (" ++ toString maxLoops ++ ")")
      { s with running := false }
  else
    -- 3. GET CURRENT TASK
    match getCurrentTask s.goal s.loopCount env.fixPlan env.fixPlanReadable with
    | none => .stopped "All tasks completed! 🎉" { s with currentTask := none, running := false }
    | some task =>
      let s := { s with currentTask := some task }
      -- 4. SELECT MODEL (if auto-switching enabled)
      let s :=
        if env.autoSwitchModels then
          let s1 := { s with rlh := setCurrentModel s.rlh env.now env.selectionModelId }
          if s1.previousModel ≠ some env.selectionModelId then
            { s1 with previousModel := some env.selectionModelId }
          else s1
        else s
      -- 5. EXECUTE TASK (external; may stop the loop from inside and may
      -- switch models on a rate-limited response)
      let s :=
        match env.execStopReason with
        | some _ => { s with running := false }
        | none => s
      let s := { s with rlh := env.execEffectRlh s.rlh }
      let success := env.execSuccess
      -- 6. HANDLE RESULT
      if ! success && ! hasAvailableModels s.rlh then
        .stopped "All models rate limited. Try again later." { s with running := false }
      else
        -- 7./8. RECORD PROGRESS, UPDATE CIRCUIT BREAKER
        let rr := s.breaker.recordResult (toLoopResult s.loopCount env.progress)
        let s := { s with breaker := rr.1 }
        -- 9. TRY RECOVERY IF CIRCUIT BREAKER INDICATES TROUBLE
        if ! rr.2 then
          if canRecover s.recovery then
            match getNextRecoveryAction s.recovery with
            | (rec', some strat) =>
                let s1 := { s with recovery := rec' }
                let s2 :=
                  match strat.modelSwitch with
                  | some m => { s1 with rlh := setCurrentModel s1.rlh env.now m }
                  | none => s1
                let s3 :=
                  match strat.promptModifier with
                  | some p => { s2 with recoveryPrompt := some p }
                  | none => s2
                .next { s3 with breaker := s3.breaker.reset "Recovery attempt" }
            | (rec', none) =>
                .stopped s.breaker.state.reason
                  { s with recovery := rec', running := false }
          else
            .stopped s.breaker.state.reason { s with running := false }
        else
          .next { s with recovery := s.recovery.reset, recoveryPrompt := none }

/-- The `while (this.running)` loop over a finite trace of external worlds:
run iterations until a stop, `running` goes false, or the trace ends. -/
def runTrace (maxLoops : Nat) : ALState → List IterEnv → ALState
  | s, [] => s
  | s, env :: rest =>
      if s.running then
        match loopIteration maxLoops s env with
        | .stopped _ fin => fin
        | .next s' => runTrace maxLoops s' rest
      else s

/-! ### C2 (corrected): recovery retries, but under the NEXT loop number -/

/-- An orchestrator state one no-progress loop away from tripping the
breaker, with a fresh recovery ladder and a goal-driven session. -/
def c2s0 : ALState :=
  { running := true, loopCount := 0, currentTask := none, goal := "g"
    recoveryPrompt := none, previousModel := none
    breaker := CircuitBreaker.mk { DEFAULT_STATE with consecutiveNoProgress := 2 } []
    recovery := RecoveryManagerState.init
    rlh := HandlerState.mk .CLAUDE_OPUS_THINKING [] 0 0 }

/-- An external world whose iteration executes successfully but records no
file changes. -/
def c2env : IterEnv :=
  { canMakeCall := true, rateDecisionExit := false, fixPlan := none
    fixPlanReadable := true, autoSwitchModels := false
    selectionModelId := .CLAUDE_OPUS_THINKING
    execSuccess := true, execStopReason := none, execEffectRlh := id
    progress := { filesChanged := 0, hasErrors := false
                  responseLength := 10, responseHash := none }
    now := 0 }

/-- C2, counterexample to "retries the same loop number without incrementing
the loop counter": iteration 1 trips the breaker (third consecutive
no-progress loop), recovery applies and the loop continues (reason
"Recovery attempt", `loopCount` = 1); but the retry iteration increments the
counter again — the breaker records loop number 2, not a re-run of loop 1. -/
theorem recovery_retry_increments_loop_cex :
    (runTrace 100 c2s0 [c2env]).breaker.state.reason = "Recovery attempt"
    ∧ (runTrace 100 c2s0 [c2env]).loopCount = 1
    ∧ (runTrace 100 c2s0 [c2env]).running = true
    ∧ (runTrace 100 c2s0 [c2env, c2env]).loopCount = 2
    ∧ (runTrace 100 c2s0 [c2env, c2env]).breaker.state.currentLoop = 2
    ∧ (runTrace 100 c2s0 [c2env, c2env]).running = true := by
  decide

/-- The rate-limit-handler state after steps 4-5 of the iteration: the
auto-switch assignment (when enabled) followed by `executeTask`'s effect. -/
def rlhAfterExec (s0 : ALState) (env : IterEnv) : HandlerState :=
  env.execEffectRlh
    (if env.autoSwitchModels then setCurrentModel s0.rlh env.now env.selectionModelId
     else s0.rlh)

/-- Projection lemmas pushing ALState field access through `ite`, used to
reason about the orchestrator's conditional model-selection step without
duplicating whole-state terms. -/
theorem ite_ALState_running (c : Prop) [Decidable c] (a b : ALState) :
    (if c then a else b).running = if c then a.running else b.running := by
  split_ifs <;> rfl

theorem ite_ALState_loopCount (c : Prop) [Decidable c] (a b : ALState) :
    (if c then a else b).loopCount = if c then a.loopCount else b.loopCount := by
  split_ifs <;> rfl

theorem ite_ALState_recoveryPrompt (c : Prop) [Decidable c] (a b : ALState) :
    (if c then a else b).recoveryPrompt
      = if c then a.recoveryPrompt else b.recoveryPrompt := by
  split_ifs <;> rfl

theorem ite_ALState_breaker (c : Prop) [Decidable c] (a b : ALState) :
    (if c then a else b).breaker = if c then a.breaker else b.breaker := by
  split_ifs <;> rfl

theorem ite_ALState_recovery (c : Prop) [Decidable c] (a b : ALState) :
    (if c then a else b).recovery = if c then a.recovery else b.recovery := by
  split_ifs <;> rfl

theorem ite_ALState_rlh (c : Prop) [Decidable c] (a b : ALState) :
    (if c then a else b).rlh = if c then a.rlh else b.rlh := by
  split_ifs <;> rfl

/-- C2 as amended: in an iteration that reaches step 9 with the breaker
reporting that execution cannot continue, if the recovery manager still has a
strategy (its `canRecover` gate passes and `getNextRecoveryAction` returns an
action), the orchestrator applies the action's model switch and/or prompt
injection, resets the circuit breaker to CLOSED with reason
"Recovery attempt" and continues — but the retry consumes the NEXT loop
number, because `continue` returns to the top of the `while` where
`loopCount++` runs again; when no strategy is available (the gate fails, or
no action is returned) it stops with the breaker's reason. -/
theorem recovery_applies_strategy_or_stops (maxLoops : Nat) (s0 : ALState)
    (env : IterEnv) (task : String)
    (h0 : s0.running = true)
    (h1 : s0.breaker.canExecute = true)
    (h2 : env.canMakeCall = true)
    (h3 : s0.loopCount + 1 ≤ maxLoops)
    (h4 : getCurrentTask s0.goal (s0.loopCount + 1) env.fixPlan env.fixPlanReadable
            = some task)
    (h5 : env.execStopReason = none)
    (h6 : env.execSuccess = true)
    (h7 : (s0.breaker.recordResult
            (toLoopResult (s0.loopCount + 1) env.progress)).2 = false) :
    (∀ rec' strat, canRecover s0.recovery = true →
      getNextRecoveryAction s0.recovery = (rec', some strat) →
      ∃ s',
        loopIteration maxLoops s0 env = .next s'
        ∧ s'.running = true
        ∧ s'.loopCount = s0.loopCount + 1
        ∧ s'.breaker = CircuitBreaker.reset CircuitBreaker.init "Recovery attempt"
        ∧ s'.recovery = rec'
        ∧ s'.recoveryPrompt
            = (match strat.promptModifier with
               | some p => some p
               | none => s0.recoveryPrompt)
        ∧ s'.rlh
            = (match strat.modelSwitch with
               | some m => setCurrentModel (rlhAfterExec s0 env) env.now m
               | none => rlhAfterExec s0 env))
    ∧ (canRecover s0.recovery = false →
      ∃ fin, loopIteration maxLoops s0 env
          = .stopped ((s0.breaker.recordResult
              (toLoopResult (s0.loopCount + 1) env.progress)).1.state.reason) fin
        ∧ fin.running = false)
    ∧ (∀ rec', canRecover s0.recovery = true →
      getNextRecoveryAction s0.recovery = (rec', none) →
      ∃ fin, loopIteration maxLoops s0 env
          = .stopped ((s0.breaker.recordResult
              (toLoopResult (s0.loopCount + 1) env.progress)).1.state.reason) fin
        ∧ fin.recovery = rec'
        ∧ fin.running = false) := by
  set_option maxRecDepth 8000 in
  have hnot : ¬ (maxLoops < s0.loopCount + 1) := Nat.not_lt.mpr h3
  refine ⟨?_, ?_, ?_⟩
  · intro rec' strat hcr hga
    cases hms : strat.modelSwitch <;> cases hpm : strat.promptModifier <;>
      (simp only [loopIteration, h0, h1, h2, h4, h5, h6, h7, hga, hcr, hms, hpm,
        if_neg hnot, Bool.not_true, Bool.false_and, Bool.and_false, Bool.not_false,
        Bool.true_and, Bool.false_eq_true, eq_self_iff_true, if_false, if_true,
        ite_ALState_running, ite_ALState_loopCount, ite_ALState_recoveryPrompt,
        ite_ALState_breaker, ite_ALState_recovery, ite_ALState_rlh, ite_self]
       refine ⟨_, rfl, ?_, ?_, ?_, ?_, ?_, ?_⟩ <;>
         simp [ite_ALState_running, ite_ALState_loopCount, ite_ALState_recoveryPrompt,
           ite_ALState_breaker, ite_ALState_recovery, ite_ALState_rlh, ite_self,
           rlhAfterExec, CircuitBreaker.reset, h0, hms, hpm])
  · intro hcr
    simp only [loopIteration, h0, h1, h2, h4, h5, h6, h7, hcr,
      if_neg hnot, Bool.not_true, Bool.false_and, Bool.and_false, Bool.not_false,
      Bool.true_and, Bool.false_eq_true, eq_self_iff_true, if_false, if_true,
      ite_ALState_running, ite_ALState_loopCount, ite_ALState_recoveryPrompt,
      ite_ALState_breaker, ite_ALState_recovery, ite_ALState_rlh, ite_self]
    exact ⟨_, rfl, rfl⟩
  · intro rec' hcr hga
    simp only [loopIteration, h0, h1, h2, h4, h5, h6, h7, hcr, hga,
      if_neg hnot, Bool.not_true, Bool.false_and, Bool.and_false, Bool.not_false,
      Bool.true_and, Bool.false_eq_true, eq_self_iff_true, if_false, if_true,
      ite_ALState_running, ite_ALState_loopCount, ite_ALState_recoveryPrompt,
      ite_ALState_breaker, ite_ALState_recovery, ite_ALState_rlh, ite_self]
    exact ⟨_, rfl, rfl, rfl⟩

/-- Witness for `recovery_applies_strategy_or_stops` at the concrete state
and environment of the counterexample trace: recovery is available there,
`getNextRecoveryAction` returns the ladder's first action
(SWITCH_TO_THINKING, a switch to the sonnet thinking model), and the
iteration continues with the breaker reset. -/
theorem recovery_applies_strategy_or_stops_witness :
    ∃ s',
      loopIteration 100 c2s0 c2env = .next s'
      ∧ s'.running = true
      ∧ s'.loopCount = c2s0.loopCount + 1
      ∧ s'.breaker = CircuitBreaker.reset CircuitBreaker.init "Recovery attempt"
      ∧ s'.recovery
          = RecoveryManagerState.mk [RecoveryStrategy.SWITCH_TO_THINKING] 1
      ∧ s'.recoveryPrompt = c2s0.recoveryPrompt
      ∧ s'.rlh = setCurrentModel (rlhAfterExec c2s0 c2env) c2env.now
          ModelIdType.CLAUDE_SONNET_THINKING := by
  have h := (recovery_applies_strategy_or_stops 100 c2s0 c2env "g" rfl rfl rfl
      (by decide) (by decide) rfl rfl (by decide)).1
      (RecoveryManagerState.mk [RecoveryStrategy.SWITCH_TO_THINKING] 1)
      { strategy := .SWITCH_TO_THINKING
        description := "Switch to thinking model for deeper reasoning"
        promptModifier := none
        modelSwitch := some .CLAUDE_SONNET_THINKING
        priority := 1 }
      (by decide) (by decide)
  exact h

/-! ### C7 (corrected): task resolution and the goal's lifetime -/

/-- C7, counterexample to the claim as stated: on iteration 2 with no
`@fix_plan.md`, the goal IS reused (resolution is not null and the session
does not stop); and on iteration 1 a non-empty goal takes precedence over a
present open task-list item. -/
theorem goal_reused_after_loop1_cex :
    getCurrentTask "build the app" 2 none true = some "build the app"
    ∧ extractCurrentTask "- [x] a\n- [ ] b\n" = some "b"
    ∧ getCurrentTask "g" 1 (some "- [x] a\n- [ ] b\n") true = some "g" := by
  decide

/-- C7 as amended: on iteration 1 a non-empty goal takes precedence over the
task list; otherwise, when the task-list file is present and readable, its
first open item is the task, and when it has no open item the resolution is
null — and the orchestrator's iteration then stops with
"All tasks completed! 🎉" — without falling back to the goal; when the file
is absent, a non-empty goal is reused on EVERY iteration, and the resolution
is null only when the goal is empty as well. -/
theorem getCurrentTask_resolution (goal : String) (lc : Nat) (plan : Option String)
    (rd : Bool) :
    (goal ≠ "" → lc = 1 → getCurrentTask goal lc plan rd = some goal)
    ∧ (∀ content t, plan = some content → rd = true → (goal = "" ∨ lc ≠ 1) →
        extractCurrentTask content = some t → getCurrentTask goal lc plan rd = some t)
    ∧ (∀ content, plan = some content → rd = true → (goal = "" ∨ lc ≠ 1) →
        extractCurrentTask content = none → getCurrentTask goal lc plan rd = none)
    ∧ (plan = none → goal ≠ "" → getCurrentTask goal lc plan rd = some goal)
    ∧ (plan = none → goal = "" → getCurrentTask goal lc plan rd = none)
    ∧ (∀ (maxLoops : Nat) (s0 : ALState) (env : IterEnv),
        s0.breaker.canExecute = true → env.canMakeCall = true →
        s0.loopCount + 1 ≤ maxLoops →
        s0.goal = goal → s0.loopCount + 1 = lc →
        env.fixPlan = plan → env.fixPlanReadable = rd →
        getCurrentTask goal lc plan rd = none →
        ∃ fin, loopIteration maxLoops s0 env
            = IterResult.stopped "All tasks completed! 🎉" fin
          ∧ fin.running = false) := by
  refine ⟨?_, ?_, ?_, ?_, ?_, ?_⟩
  · intro hne h1
    simp [getCurrentTask, hne, h1]
  · intro content t hp hr hcond hext
    subst hp
    subst hr
    rcases hcond with h | h <;> simp [getCurrentTask, h, hext]
  · intro content hp hr hcond hext
    subst hp
    subst hr
    rcases hcond with h | h <;> simp [getCurrentTask, h, hext]
  · intro hp hg
    subst hp
    by_cases hlc : lc = 1 <;> simp [getCurrentTask, hg, hlc]
  · intro hp hg
    subst hp
    simp [getCurrentTask, hg]
  · intro maxLoops s0 env h1 h2 h3 hg hlc hfp hfpr hnone
    have hnot : ¬ (maxLoops < s0.loopCount + 1) := Nat.not_lt.mpr h3
    have hnone' : getCurrentTask s0.goal (s0.loopCount + 1) env.fixPlan
        env.fixPlanReadable = none := by
      rw [hg, hlc, hfp, hfpr]
      exact hnone
    simp only [loopIteration, h1, h2, hnone',
      if_neg hnot, Bool.not_true, Bool.false_and, Bool.and_false, Bool.not_false,
      Bool.true_and, Bool.false_eq_true, eq_self_iff_true, if_false, if_true]
    exact ⟨_, rfl, rfl⟩

/-- Witness for `getCurrentTask_resolution`: the goal-reuse conjunct at
iteration 2 with no task-list file. -/
theorem getCurrentTask_resolution_witness :
    getCurrentTask "build the app" 2 none true = some "build the app" :=
  (getCurrentTask_resolution "build the app" 2 none true).2.2.2.1 rfl (by decide)

end Yoke
